import Mathlib

/-!
Verification of the Street Protocol physics core against its specification.

The model is a shallow embedding of the engine (`PhysicsWorld`, the vehicle
suspension in `Car.update`, and the `CameraRig` collision probe) with exact
rational arithmetic in place of IEEE doubles.  Two operations of the source
have no exact rational counterpart and are treated as follows:

* square roots (`Vector3.length`, used only inside the capsule wall-push
  resolution) are abstracted as an arbitrary function `sq : ℚ → ℚ` passed as a
  parameter; every theorem quantifies over it, so nothing proved depends on
  the value a square root takes;
* the trigonometric quaternion update of the sub-step integrator
  (`setFromAxisAngle` / `normalize`) is abstracted as a parameter
  `rotUpd : Quat → Vec3 → ℚ → Quat` of the integrator; the update itself is
  modelled separately over the reals (`RotModel` below), where the unit-norm
  invariant is proved exactly.
-/

/-- Three-component rational vector mirroring `THREE.Vector3`. -/
structure Vec3 where
  x : ℚ
  y : ℚ
  z : ℚ
deriving DecidableEq, Repr

namespace Vec3

/-- Componentwise sum, as `Vector3.add`. -/
def add (a b : Vec3) : Vec3 := ⟨a.x + b.x, a.y + b.y, a.z + b.z⟩

/-- Componentwise difference, as `Vector3.sub`. -/
def sub (a b : Vec3) : Vec3 := ⟨a.x - b.x, a.y - b.y, a.z - b.z⟩

/-- Scalar multiple, as `Vector3.multiplyScalar`. -/
def scale (s : ℚ) (a : Vec3) : Vec3 := ⟨s * a.x, s * a.y, s * a.z⟩

/-- The update `v.addScaledVector(w, s)` of three.js. -/
def addScaled (a : Vec3) (b : Vec3) (s : ℚ) : Vec3 :=
  ⟨a.x + b.x * s, a.y + b.y * s, a.z + b.z * s⟩

/-- Dot product, as `Vector3.dot`. -/
def dot (a b : Vec3) : ℚ := a.x * b.x + a.y * b.y + a.z * b.z

/-- Cross product, as `Vector3.cross`. -/
def cross (a b : Vec3) : Vec3 :=
  ⟨a.y * b.z - a.z * b.y, a.z * b.x - a.x * b.z, a.x * b.y - a.y * b.x⟩

/-- Squared length, as `Vector3.lengthSq`; `Vector3.length` is its square
root and is represented through the abstract parameter `sq`. -/
def lengthSq (a : Vec3) : ℚ := a.x * a.x + a.y * a.y + a.z * a.z

/-- The zero vector, the state `new THREE.Vector3()` starts in. -/
def zero : Vec3 := ⟨0, 0, 0⟩

end Vec3

instance : Add Vec3 := ⟨Vec3.add⟩
instance : Sub Vec3 := ⟨Vec3.sub⟩
instance : SMul ℚ Vec3 := ⟨Vec3.scale⟩

/-- Rational quaternion mirroring `THREE.Quaternion` (components `x y z w`). -/
structure Quat where
  x : ℚ
  y : ℚ
  z : ℚ
  w : ℚ
deriving DecidableEq, Repr

/-- The identity quaternion `new THREE.Quaternion()`. -/
def Quat.one : Quat := ⟨0, 0, 0, 1⟩

/-- The formula of `Vector3.applyQuaternion` from three.js:
`t = 2 * cross(q.xyz, v)` and the result is `v + q.w * t + cross(q.xyz, t)`. -/
def applyQuaternion (q : Quat) (v : Vec3) : Vec3 :=
  let tx := 2 * (q.y * v.z - q.z * v.y)
  let ty := 2 * (q.z * v.x - q.x * v.z)
  let tz := 2 * (q.x * v.y - q.y * v.x)
  ⟨v.x + q.w * tx + q.y * tz - q.z * ty,
   v.y + q.w * ty + q.z * tx - q.x * tz,
   v.z + q.w * tz + q.x * ty - q.y * tx⟩

/-- Axis-aligned box mirroring `THREE.Box3`. -/
structure Box3 where
  min : Vec3
  max : Vec3
deriving DecidableEq, Repr

namespace Box3

/-- The overlap test `Box3.intersectsBox` (touching boxes count as
intersecting: rejection uses strict comparisons). -/
def intersects (a b : Box3) : Bool :=
  !(b.max.x < a.min.x || b.min.x > a.max.x ||
    b.max.y < a.min.y || b.min.y > a.max.y ||
    b.max.z < a.min.z || b.min.z > a.max.z)

/-- The constructor `Box3.setFromCenterAndSize`. -/
def setFromCenterAndSize (center size : Vec3) : Box3 :=
  ⟨center - Vec3.scale (1/2) size, center + Vec3.scale (1/2) size⟩

/-- The accessor `Box3.getCenter`. -/
def getCenter (b : Box3) : Vec3 := Vec3.scale (1/2) (b.min + b.max)

/-- The emptiness test `Box3.isEmpty`. -/
def isEmpty (b : Box3) : Bool :=
  b.max.x < b.min.x || b.max.y < b.min.y || b.max.z < b.min.z

/-- The clipping operation `Box3.intersect`: componentwise max of minima and
min of maxima; an empty result is canonicalised by `makeEmpty` (modelled here
by keeping the already-empty bounds, which `getSize` below treats as zero). -/
def inter (a b : Box3) : Box3 :=
  ⟨⟨Max.max a.min.x b.min.x, Max.max a.min.y b.min.y, Max.max a.min.z b.min.z⟩,
   ⟨Min.min a.max.x b.max.x, Min.min a.max.y b.max.y, Min.min a.max.z b.max.z⟩⟩

/-- The accessor `Box3.getSize`: zero for an empty box, else `max - min`. -/
def getSize (b : Box3) : Vec3 :=
  if b.isEmpty then Vec3.zero else b.max - b.min

end Box3

/-- The two collider shapes of the `PhysicsBody` interface. -/
inductive ColliderType where
  | capsule
  | box
deriving DecidableEq, Repr

/-- The collider descriptor `{ type, size }` of `types.ts`.  For a capsule,
`size.x` is the radius and `size.y` the height; for a box, `size` holds the
half-extents. -/
structure Collider where
  ctype : ColliderType
  size : Vec3
deriving DecidableEq, Repr

/-- The `PhysicsBody` interface of `types.ts`. -/
structure PhysicsBody where
  mass : ℚ
  position : Vec3
  velocity : Vec3
  rotation : Quat
  angularVelocity : Vec3
  size : Vec3
  collider : Collider
  isGrounded : Bool
  isSleeping : Bool
deriving DecidableEq, Repr

/-- The result record of `PhysicsWorld.raycast`. -/
structure RayHit where
  dist : ℚ
  point : Vec3
  normal : Vec3
deriving DecidableEq, Repr

/-- The constant `GRAVITY` of the engine. -/
def gravity : Vec3 := ⟨0, -25, 0⟩

/-- The constant `MAX_STEP_HEIGHT = 0.4` of the engine. -/
def MAX_STEP_HEIGHT : ℚ := 2/5

/-- The wall branch of `resolveCapsule` ("Wall Collision - Hard Push"):
horizontal push-out along the separation from the nearest footprint point,
with the into-wall velocity component cancelled; at zero separation, push out
along the horizontal axis of smaller penetration.  `sq` stands for the square
root used by `Vector3.length` and `Vector3.normalize`. -/
def wallPush (sq : ℚ → ℚ) (radius : ℚ) (sb : Box3) (b : PhysicsBody) :
    PhysicsBody :=
  let pos := b.position
  let center := sb.getCenter
  let clampedX := Max.max sb.min.x (Min.min pos.x sb.max.x)
  let clampedZ := Max.max sb.min.z (Min.min pos.z sb.max.z)
  let diff : Vec3 := ⟨pos.x - clampedX, 0, pos.z - clampedZ⟩
  let dist := sq diff.lengthSq
  if dist < radius ∧ dist > 0 then
    let overlap := radius - dist
    let diffN := Vec3.scale (1 / dist) diff
    let b1 := { b with position := b.position.addScaled diffN overlap }
    let vDot := b1.velocity.dot diffN
    if vDot < 0 then
      { b1 with velocity := b1.velocity.addScaled diffN (-vDot) }
    else b1
  else if dist = 0 then
    let dx := if pos.x > center.x then sb.max.x - (pos.x - radius)
              else (pos.x + radius) - sb.min.x
    let dz := if pos.z > center.z then sb.max.z - (pos.z - radius)
              else (pos.z + radius) - sb.min.z
    if |dx| < |dz| then
      { b with position := { b.position with
          x := b.position.x + (if pos.x > center.x then 1 else -1) * |dx * (1/2)| } }
    else
      { b with position := { b.position with
          z := b.position.z + (if pos.z > center.z then 1 else -1) * |dz * (1/2)| } }
  else b

/-- One iteration of the static-collider loop of `resolveCapsule`.
`playerBottom` and `capsuleBox` are the snapshots taken before the loop;
`b` is the live body state. -/
def resolveCapsuleBox (sq : ℚ → ℚ) (radius halfHeight playerBottom : ℚ)
    (capsuleBox : Box3) (b : PhysicsBody) (sb : Box3) : PhysicsBody :=
  if capsuleBox.intersects sb then
    let stepDiff := sb.max.y - playerBottom
    if stepDiff > 0 ∧ stepDiff ≤ MAX_STEP_HEIGHT ∧
        sb.max.y < b.position.y + halfHeight - 1/10 then
      { b with
        position := { b.position with
          y := Max.max b.position.y (sb.max.y + halfHeight) },
        velocity := { b.velocity with y := 0 },
        isGrounded := true }
    else wallPush sq radius sb b
  else b

/-- `PhysicsWorld.resolveCapsule`: ground-plane clamp, then the loop over the
static colliders with the pre-loop snapshots of the capsule bottom and
bounding box. -/
def resolveCapsule (sq : ℚ → ℚ) (colliders : List Box3) (b : PhysicsBody) :
    PhysicsBody :=
  let radius := b.collider.size.x
  let height := b.collider.size.y
  let halfHeight := height / 2
  let b1 :=
    if b.position.y < halfHeight then
      { b with
        position := { b.position with y := halfHeight },
        velocity := if b.velocity.y < 0 then { b.velocity with y := 0 }
                    else b.velocity,
        isGrounded := true }
    else b
  let playerBottom := b1.position.y - halfHeight
  let capsuleBox := Box3.setFromCenterAndSize b1.position
    ⟨radius * 2, height, radius * 2⟩
  colliders.foldl (resolveCapsuleBox sq radius halfHeight playerBottom capsuleBox) b1

/-- One iteration of the static-collider loop of `resolveBox`: push out along
the axis of smallest overlap of the intersection volume, with a 50% bounce on
the horizontal axes and a velocity zero on the vertical one.  `pBox` is the
snapshot of the body box taken before the loop. -/
def resolveBoxOne (pBox : Box3) (b : PhysicsBody) (sb : Box3) : PhysicsBody :=
  if pBox.intersects sb then
    let sz := (pBox.inter sb).getSize
    if sz.x < sz.z ∧ sz.x < sz.y then
      let dir : ℚ := if b.position.x > sb.max.x then 1 else -1
      { b with
        position := { b.position with x := b.position.x + sz.x * dir },
        velocity := { b.velocity with x := b.velocity.x * (-1/2) } }
    else if sz.z < sz.x ∧ sz.z < sz.y then
      let dir : ℚ := if b.position.z > sb.max.z then 1 else -1
      { b with
        position := { b.position with z := b.position.z + sz.z * dir },
        velocity := { b.velocity with z := b.velocity.z * (-1/2) } }
    else
      let dir : ℚ := if b.position.y > sb.max.y then 1 else -1
      { b with
        position := { b.position with y := b.position.y + sz.y * dir },
        velocity := { b.velocity with y := 0 } }
  else b

/-- `PhysicsWorld.resolveBox`: ground plane with a 30% vertical bounce and 1%
horizontal friction, then the loop over the static colliders.  For a box
collider `collider.size` holds the half-extents, so the ground height is
`collider.size.y`. -/
def resolveBox (colliders : List Box3) (b : PhysicsBody) : PhysicsBody :=
  let halfHeight := b.collider.size.y
  let b1 :=
    if b.position.y < halfHeight then
      let b0 := { b with position := { b.position with y := halfHeight } }
      if b0.velocity.y < 0 then
        { b0 with velocity := ⟨b0.velocity.x * (99/100),
                               b0.velocity.y * (-3/10),
                               b0.velocity.z * (99/100)⟩ }
      else b0
    else b
  let pBox := Box3.setFromCenterAndSize b1.position b1.size
  colliders.foldl (resolveBoxOne pBox) b1

/-- The integration stage of one sub-step of `PhysicsWorld.simulate`:
gravity, the grounded/airborne velocity damping, the `dt`-proportional
angular damping, position and orientation integration, and the `isGrounded`
reset.  `rotUpd` stands for the trigonometric orientation update
(`setFromAxisAngle`, `multiply`, `normalize`), modelled exactly over the
reals in `RotModel`; the source guard `angularVelocity.length() * dt >
0.0001` is written in the equivalent square-free form
`0 < dt ∧ lengthSq * dt^2 > (1/10000)^2` (the length is the nonnegative
square root of `lengthSq`). -/
def integrateBody (rotUpd : Quat → Vec3 → ℚ → Quat) (dt : ℚ)
    (b : PhysicsBody) : PhysicsBody :=
  let v1 := b.velocity.addScaled gravity dt
  let damping : ℚ := if b.isGrounded then 1/20 else 1/100
  let v2 := Vec3.scale (1 - damping) v1
  let av := Vec3.scale (1 - 2 * dt) b.angularVelocity
  let p := b.position.addScaled v2 dt
  let rot := if 0 < dt ∧ av.lengthSq * dt^2 > (1/10000)^2 then
               rotUpd b.rotation av dt
             else b.rotation
  { b with velocity := v2, angularVelocity := av, position := p,
           rotation := rot, isGrounded := false }

/-- The per-body part of `PhysicsWorld.simulate`: the `mass === 0` skip, the
anti-void teleport guard, then integration followed by shape-dispatched
collision resolution. -/
def simulateBody (sq : ℚ → ℚ) (rotUpd : Quat → Vec3 → ℚ → Quat)
    (colliders : List Box3) (dt : ℚ) (b : PhysicsBody) : PhysicsBody :=
  if b.mass = 0 then b
  else if b.position.y < -20 then
    { b with position := ⟨0, 10, 0⟩, velocity := Vec3.zero }
  else
    let b1 := integrateBody rotUpd dt b
    if b1.collider.ctype = ColliderType.capsule then
      resolveCapsule sq colliders b1
    else
      resolveBox colliders b1

/-- The `PhysicsWorld` state: the body list and the static-collider list. -/
structure PhysicsWorld where
  bodies : List PhysicsBody
  staticColliders : List Box3
deriving DecidableEq, Repr

/-- `PhysicsWorld.simulate`: one sub-step applied to every body (bodies do
not interact, so the in-place loop is a map). -/
def simulate (sq : ℚ → ℚ) (rotUpd : Quat → Vec3 → ℚ → Quat) (dt : ℚ)
    (w : PhysicsWorld) : PhysicsWorld :=
  { w with bodies := w.bodies.map (simulateBody sq rotUpd w.staticColliders dt) }

/-- `PhysicsWorld.step`: 4 fixed sub-steps of `dt / 4` each. -/
def step (sq : ℚ → ℚ) (rotUpd : Quat → Vec3 → ℚ → Quat) (dt : ℚ)
    (w : PhysicsWorld) : PhysicsWorld :=
  let subDt := dt / 4
  Nat.iterate (simulate sq rotUpd subDt) 4 w

/-- `PhysicsWorld.raycast`: only the implicit ground plane `y = 0` is tested;
the static-collider list of the world is never consulted (the source carries
only the comment that box raycasts "could be added here"). -/
def raycast (colliders : List Box3) (origin direction : Vec3) (maxLength : ℚ) :
    Option RayHit :=
  let _ := colliders
  if direction.y < 0 then
    let t := -origin.y / direction.y
    if 0 ≤ t ∧ t ≤ maxLength then
      some ⟨t, origin.addScaled direction t, ⟨0, 1, 0⟩⟩
    else none
  else none

/-- The numeric tuning fields of the `VehicleConfig` interface. -/
structure VehicleConfig where
  mass : ℚ
  enginePower : ℚ
  brakeForce : ℚ
  drag : ℚ
  suspensionLength : ℚ
  suspensionStiffness : ℚ
  suspensionDamping : ℚ
  frictionLat : ℚ
  frictionLong : ℚ
  wheelRadius : ℚ
deriving DecidableEq, Repr

/-- Output of the suspension portion of one wheel in `Car.update`: the
world-space mount point, the ray direction, and, when the ray hits, the
suspension impulse force vector pushed into the impulse list. -/
structure SuspensionOut where
  mountWorld : Vec3
  rayDir : Vec3
  impulse : Option Vec3
deriving DecidableEq, Repr

/-- The suspension stage of one wheel in `Car.update`: the mount point is
rotated into world space, the ray direction is the body-rotated `(0, -1, 0)`,
the ray is cast through `PhysicsWorld.raycast` with length
`suspensionLength + wheelRadius`, and on a hit the clamped spring-damper
force `max(0, spring + damp)` is pushed as the impulse
`down * (-suspensionForce)` at the mount point. -/
def wheelSuspension (colliders : List Box3) (cfg : VehicleConfig)
    (b : PhysicsBody) (mountLocal : Vec3) : SuspensionOut :=
  let mountWorld := (applyQuaternion b.rotation mountLocal) + b.position
  let down := applyQuaternion b.rotation ⟨0, -1, 0⟩
  let impulse :=
    match raycast colliders mountWorld down (cfg.suspensionLength + cfg.wheelRadius) with
    | none => none
    | some hit =>
      let travel := hit.dist - cfg.wheelRadius
      let compression := Max.max 0 (Min.min 1 (1 - travel / cfg.suspensionLength))
      let springF := compression * cfg.suspensionStiffness
      let r := mountWorld - b.position
      let pointVel := b.velocity + b.angularVelocity.cross r
      let velUp := pointVel.dot down
      let dampF := -velUp * cfg.suspensionDamping
      let force := Max.max 0 (springF + dampF)
      some (Vec3.scale (-force) down)
  ⟨mountWorld, down, impulse⟩

/-- Extended rational mirroring the values a JS double slab computation can
take in `Ray.intersectBox`: finite, positive or negative infinity, or NaN. -/
inductive ERat where
  | nan
  | ninf
  | pinf
  | fin (q : ℚ)
deriving DecidableEq, Repr

namespace ERat

/-- The reciprocal `1 / d` of JS: infinity at zero (zero is treated as `+0`,
the value the camera-offset subtraction produces). -/
def invDir (d : ℚ) : ERat := if d = 0 then pinf else fin (1 / d)

/-- The product `q * e` of JS: a zero times an infinity is NaN. -/
def mulq (q : ℚ) (e : ERat) : ERat :=
  match e with
  | fin r => fin (q * r)
  | pinf => if q > 0 then pinf else if q < 0 then ninf else nan
  | ninf => if q > 0 then ninf else if q < 0 then pinf else nan
  | nan => nan

/-- The strict comparison `a < b` of JS: NaN compares false with everything. -/
def lt (a b : ERat) : Bool :=
  match a, b with
  | nan, _ => false
  | _, nan => false
  | ninf, ninf => false
  | ninf, _ => true
  | _, ninf => false
  | pinf, _ => false
  | fin _, pinf => true
  | fin a, fin b => decide (a < b)

/-- The strict comparison `a > b` of JS. -/
def gt (a b : ERat) : Bool := lt b a

/-- The test `e >= 0` of JS. -/
def ge0 (e : ERat) : Bool :=
  match e with
  | nan => false
  | ninf => false
  | pinf => true
  | fin q => decide (0 ≤ q)

/-- The test `e < 0` of JS. -/
def lt0 (e : ERat) : Bool :=
  match e with
  | nan => false
  | ninf => true
  | pinf => false
  | fin q => decide (q < 0)

/-- The NaN test of JS. -/
def isNan (e : ERat) : Bool :=
  match e with
  | nan => true
  | _ => false

end ERat

/-- One axis of the slab method: the `(tmin, tmax)` pair computed under the
`invdir >= 0` test of `Ray.intersectBox`. -/
def slab (inv : ERat) (lo hi : ℚ) : ERat × ERat :=
  if inv.ge0 then (ERat.mulq lo inv, ERat.mulq hi inv)
  else (ERat.mulq hi inv, ERat.mulq lo inv)

/-- The slab-method `Ray.intersectBox` of three.js, returning the ray
parameter of the reported intersection point (`ray.at(t)`). -/
def rayBoxT (o d : Vec3) (box : Box3) : Option ERat :=
  let px := slab (ERat.invDir d.x) (box.min.x - o.x) (box.max.x - o.x)
  let py := slab (ERat.invDir d.y) (box.min.y - o.y) (box.max.y - o.y)
  if px.1.gt py.2 || py.1.gt px.2 then none
  else
    let tmin1 := if py.1.gt px.1 || px.1.isNan then py.1 else px.1
    let tmax1 := if py.2.lt px.2 || px.2.isNan then py.2 else px.2
    let pz := slab (ERat.invDir d.z) (box.min.z - o.z) (box.max.z - o.z)
    if tmin1.gt pz.2 || pz.1.gt tmax1 then none
    else
      let tmin2 := if pz.1.gt tmin1 then pz.1 else tmin1
      let tmax2 := if pz.2.lt tmax1 then pz.2 else tmax1
      if tmax2.lt0 then none
      else some (if tmin2.ge0 then tmin2 else tmax2)

/-- The hit-distance fold of the camera probe: starting from the full desired
distance, scan every static collider and keep the closest intersection
distance.  The probe direction is a unit vector, so the distance from the ray
start to `ray.at(t)` is `|t|`; an infinite or NaN parameter yields an
infinite or NaN distance, which never passes the `d < hitDist` test. -/
def probeHitDist (rayStart dir : Vec3) (fullDist : ℚ)
    (colliders : List Box3) : ℚ :=
  colliders.foldl (fun h box =>
    match rayBoxT rayStart dir box with
    | some (ERat.fin t) => if |t| < h then |t| else h
    | some _ => h
    | none => h) fullDist

/-- The occlusion clamp of `CameraRig.update` (third-person branch): the ray
starts 1 unit above the target, and if the closest hit is nearer than the
full desired distance the camera is pulled to the hit distance minus the 0.2
inset.  `dir` is the unit vector from the target toward the desired camera
position and `fullDist` their distance; both involve a square root in the
source, so they are passed in and constrained by hypotheses where needed. -/
def cameraProbe (targetPos desiredPos dir : Vec3) (fullDist : ℚ)
    (colliders : List Box3) : Vec3 :=
  let rayStart := targetPos + (⟨0, 1, 0⟩ : Vec3)
  let hitDist := probeHitDist rayStart dir fullDist colliders
  if hitDist < fullDist then rayStart + Vec3.scale (hitDist - 1/5) dir
  else desiredPos

/-- The signed offset along the probe direction, from the ray start, at
which the clamped camera is placed: `hitDist - 0.2` when an occluder is
closer than the desired distance, the full distance otherwise. -/
def resolvedCameraDist (targetPos dir : Vec3) (fullDist : ℚ)
    (colliders : List Box3) : ℚ :=
  let rayStart := targetPos + (⟨0, 1, 0⟩ : Vec3)
  let hitDist := probeHitDist rayStart dir fullDist colliders
  if hitDist < fullDist then hitDist - 1/5 else fullDist

namespace RotModel

/-- Real-valued three-vector for the trigonometric rotation model. -/
structure Vec3R where
  x : ℝ
  y : ℝ
  z : ℝ

/-- The length `Vector3.length`. -/
noncomputable def Vec3R.length (v : Vec3R) : ℝ :=
  Real.sqrt (v.x ^ 2 + v.y ^ 2 + v.z ^ 2)

/-- The in-place `Vector3.normalize`, which divides by `length || 1`. -/
noncomputable def Vec3R.normalize (v : Vec3R) : Vec3R :=
  let l := v.length
  let d := if l = 0 then 1 else l
  ⟨v.x / d, v.y / d, v.z / d⟩

/-- The constructor `Quaternion.setFromAxisAngle`: components
`(cos(θ/2), axis * sin(θ/2))`, with the real part first in Mathlib order. -/
noncomputable def axisAngle (axis : Vec3R) (angle : ℝ) : Quaternion ℝ :=
  ⟨Real.cos (angle / 2), axis.x * Real.sin (angle / 2),
   axis.y * Real.sin (angle / 2), axis.z * Real.sin (angle / 2)⟩

/-- The in-place `Quaternion.normalize`: the identity when the length is
zero, the quaternion divided by its length otherwise. -/
noncomputable def qnormalize (q : Quaternion ℝ) : Quaternion ℝ :=
  if ‖q‖ = 0 then ⟨1, 0, 0, 0⟩ else ‖q‖⁻¹ • q

/-- The orientation update of one sub-step of `PhysicsWorld.simulate`: when
the rotation angle `|ω| * dt` exceeds the `0.0001` epsilon, compose with the
axis-angle rotation about the normalized angular velocity and renormalize;
otherwise leave the orientation unchanged. -/
noncomputable def integrateRotation (q : Quaternion ℝ) (av : Vec3R)
    (dt : ℝ) : Quaternion ℝ :=
  let angle := av.length * dt
  if angle > 1 / 10000 then qnormalize (q * axisAngle av.normalize angle)
  else q

/-- The orientation after a finite sequence of sub-step integrations, each
with its own angular velocity and time step. -/
noncomputable def orientationAfter (q0 : Quaternion ℝ)
    (steps : List (Vec3R × ℝ)) : Quaternion ℝ :=
  steps.foldl (fun q s => integrateRotation q s.1 s.2) q0

end RotModel

/-- Sample capsule body mirroring the player: mass 75, capsule radius 0.35
and height 1.7, resting on the ground plane at `y = halfHeight = 0.85`. -/
def playerRest : PhysicsBody :=
  ⟨75, ⟨0, 17/20, 0⟩, Vec3.zero, Quat.one, Vec3.zero, ⟨1/2, 9/5, 1/2⟩,
   ⟨ColliderType.capsule, ⟨7/20, 17/10, 0⟩⟩, true, false⟩

/-- Sample box body mirroring the sport car: mass 1400, half-extents
`(2.2, 0.6, 0.95)`, resting on the ground plane at `y = halfExtent.y = 0.6`,
grounded flag initially true as in the car constructor. -/
def carRest : PhysicsBody :=
  ⟨1400, ⟨0, 3/5, 0⟩, Vec3.zero, Quat.one, Vec3.zero, ⟨22/5, 6/5, 19/10⟩,
   ⟨ColliderType.box, ⟨11/5, 3/5, 19/10⟩⟩, true, false⟩

/-- The same car body tilted by the rational unit quaternion
`(x, y, z, w) = (0, 0, 3/5, 4/5)`, a roll about the z-axis. -/
def tiltedCar : PhysicsBody :=
  ⟨1400, ⟨0, 1, 0⟩, Vec3.zero, ⟨0, 0, 3/5, 4/5⟩, Vec3.zero,
   ⟨22/5, 6/5, 19/10⟩, ⟨ColliderType.box, ⟨11/5, 3/5, 19/10⟩⟩, false, false⟩

/-- The sport-car tuning constants of the frame driver (`CAR_SPORT`). -/
def sportConfig : VehicleConfig :=
  ⟨1400, 18000, 450, 3/10, 2/5, 60000, 5000, 20, 18, 33/100⟩

theorem wallPush_keeps_y (sq : ℚ → ℚ) (radius : ℚ) (sb : Box3)
    (b : PhysicsBody) : (wallPush sq radius sb b).position.y = b.position.y := by
  simp only [wallPush]
  split_ifs <;> simp [Vec3.addScaled, Vec3.scale, Vec3.lengthSq]

theorem wallPush_keeps_isGrounded (sq : ℚ → ℚ) (radius : ℚ) (sb : Box3)
    (b : PhysicsBody) :
    (wallPush sq radius sb b).isGrounded = b.isGrounded := by
  simp only [wallPush]
  split_ifs <;> rfl

theorem resolveCapsuleBox_y_mono (sq : ℚ → ℚ) (r hh pb : ℚ) (cb : Box3)
    (b : PhysicsBody) (sb : Box3) :
    b.position.y ≤ (resolveCapsuleBox sq r hh pb cb b sb).position.y := by
  simp only [resolveCapsuleBox]
  split_ifs with h1 h2
  · exact le_max_left _ _
  · exact le_of_eq (wallPush_keeps_y sq r sb b).symm
  · exact le_refl _

theorem foldl_resolveCapsuleBox_y_mono (sq : ℚ → ℚ) (r hh pb : ℚ) (cb : Box3)
    (l : List Box3) (b : PhysicsBody) :
    b.position.y ≤ (l.foldl (resolveCapsuleBox sq r hh pb cb) b).position.y := by
  induction l generalizing b with
  | nil => exact le_refl _
  | cons s t ih =>
    exact le_trans (resolveCapsuleBox_y_mono sq r hh pb cb b s) (ih _)

/-- C9: capsule collision resolution never lowers a body: for every square
root oracle, every static-collider list and every body, `resolveCapsule`
returns a position whose `y` is at least the incoming `y` — the ground clamp
and the step climb only raise the height, and both wall-push branches touch
only `x` and `z`. -/
theorem resolveCapsule_y_monotone (sq : ℚ → ℚ) (colliders : List Box3)
    (b : PhysicsBody) :
    b.position.y ≤ (resolveCapsule sq colliders b).position.y := by
  have key : ∀ (b1 : PhysicsBody) (r hh pb : ℚ) (cb : Box3),
      b.position.y ≤ b1.position.y →
      b.position.y ≤ ((colliders.foldl (resolveCapsuleBox sq r hh pb cb) b1)).position.y :=
    fun b1 r hh pb cb hle =>
      le_trans hle (foldl_resolveCapsuleBox_y_mono sq r hh pb cb colliders b1)
  simp only [resolveCapsule]
  split_ifs with h hv
  · exact key _ _ _ _ _ (le_of_lt h)
  · exact key _ _ _ _ _ (le_of_lt h)
  · exact key _ _ _ _ _ (le_refl _)

/-- C4: the ground-plane raycast returns a hit exactly when the direction
points down and the plane parameter `t = -origin.y / direction.y` lies in
`[0, maxLength]`; the hit is then the ground-plane intersection with distance
`t`, point `origin + t * direction` and normal `(0, 1, 0)`.  The quantified
collider list shows rays toward static boxes change nothing: the list is
never consulted. -/
theorem raycast_ground_plane_spec (colliders : List Box3) (o d : Vec3)
    (len : ℚ) :
    ((raycast colliders o d len).isSome ↔
      d.y < 0 ∧ 0 ≤ -o.y / d.y ∧ -o.y / d.y ≤ len)
    ∧ ∀ h, raycast colliders o d len = some h →
        h = ⟨-o.y / d.y, o.addScaled d (-o.y / d.y), ⟨0, 1, 0⟩⟩ := by
  unfold raycast
  constructor
  · by_cases h1 : d.y < 0 <;> simp [h1]
  · intro h hh
    by_cases h1 : d.y < 0
    · simp only [h1, if_true] at hh
      split_ifs at hh
      exact (Option.some_injective _ hh).symm
    · simp [h1] at hh

/-- C4 witness: a ray from `(0, 5, 0)` straight down with range 10 hits the
ground plane at distance 5, point `(0, 0, 0)`, normal `(0, 1, 0)`. -/
theorem raycast_ground_plane_spec_witness :
    (⟨5, ⟨0, 0, 0⟩, ⟨0, 1, 0⟩⟩ : RayHit) =
      ⟨-(⟨0, 5, 0⟩ : Vec3).y / (⟨0, -1, 0⟩ : Vec3).y,
       Vec3.addScaled ⟨0, 5, 0⟩ ⟨0, -1, 0⟩ (-(⟨0, 5, 0⟩ : Vec3).y / (⟨0, -1, 0⟩ : Vec3).y),
       ⟨0, 1, 0⟩⟩ :=
  (raycast_ground_plane_spec [] ⟨0, 5, 0⟩ ⟨0, -1, 0⟩ 10).2
    ⟨5, ⟨0, 0, 0⟩, ⟨0, 1, 0⟩⟩ (by norm_num [raycast, Vec3.addScaled])

theorem simulateBody_mass_zero (sq : ℚ → ℚ) (rotUpd : Quat → Vec3 → ℚ → Quat)
    (colliders : List Box3) (dt : ℚ) (b : PhysicsBody) (h : b.mass = 0) :
    simulateBody sq rotUpd colliders dt b = b := by
  unfold simulateBody
  rw [if_pos h]

theorem simulate_massless_getElem (sq : ℚ → ℚ) (rotUpd : Quat → Vec3 → ℚ → Quat)
    (d : ℚ) (w : PhysicsWorld) (i : ℕ) (b : PhysicsBody)
    (h : w.bodies[i]? = some b) (hb : b.mass = 0) :
    (simulate sq rotUpd d w).bodies[i]? = some b := by
  unfold simulate
  simp [List.getElem?_map, h, simulateBody_mass_zero sq rotUpd w.staticColliders d b hb]

/-- C8: a body with mass 0 is skipped by the integrator, so a full `step`
call leaves it unchanged (position, velocity, orientation and every other
field), whatever the time step and the rest of the world. -/
theorem massless_body_unchanged (sq : ℚ → ℚ) (rotUpd : Quat → Vec3 → ℚ → Quat)
    (dt : ℚ) (w : PhysicsWorld) (i : ℕ) (b : PhysicsBody)
    (h : w.bodies[i]? = some b) (hb : b.mass = 0) :
    (step sq rotUpd dt w).bodies[i]? = some b := by
  unfold step
  have key : ∀ (n : ℕ) (ww : PhysicsWorld), ww.bodies[i]? = some b →
      (Nat.iterate (simulate sq rotUpd (dt / 4)) n ww).bodies[i]? = some b := by
    intro n
    induction n with
    | zero => intro ww hw; simpa using hw
    | succ k ih =>
      intro ww hw
      rw [Function.iterate_succ_apply]
      exact ih _ (simulate_massless_getElem sq rotUpd (dt / 4) ww i b hw hb)
  exact key 4 w h

/-- C8 witness: a concrete mass-0 body in a world with a static box is
returned untouched by a step of `dt = 7`. -/
theorem massless_body_unchanged_witness :
    (step (fun _ => 0) (fun q _ _ => q) 7
        ⟨[⟨0, ⟨3, 4, 5⟩, ⟨1, 2, 3⟩, ⟨0, 0, 0, 1⟩, ⟨4, 5, 6⟩, ⟨1, 1, 1⟩,
           ⟨ColliderType.capsule, ⟨1, 2, 0⟩⟩, false, false⟩],
          [⟨⟨0, 0, 0⟩, ⟨1, 1, 1⟩⟩]⟩).bodies[0]? =
      some ⟨0, ⟨3, 4, 5⟩, ⟨1, 2, 3⟩, ⟨0, 0, 0, 1⟩, ⟨4, 5, 6⟩, ⟨1, 1, 1⟩,
            ⟨ColliderType.capsule, ⟨1, 2, 0⟩⟩, false, false⟩ :=
  massless_body_unchanged (fun _ => 0) (fun q _ _ => q) 7 _ 0 _ rfl rfl

/-- C10: `step` is deterministic — two worlds with element-wise equal body
lists and static-collider lists step to equal worlds under the same time
step (the integrator and both resolvers are pure functions of the bodies and
colliders; there is no randomness and no other state). -/
theorem step_deterministic (sq : ℚ → ℚ) (rotUpd : Quat → Vec3 → ℚ → Quat)
    (dt : ℚ) (w1 w2 : PhysicsWorld) (hb : w1.bodies = w2.bodies)
    (hs : w1.staticColliders = w2.staticColliders) :
    step sq rotUpd dt w1 = step sq rotUpd dt w2 := by
  have hw : w1 = w2 := by
    cases w1
    cases w2
    cases hb
    cases hs
    rfl
  rw [hw]

/-- C10 witness: two syntactically different but element-wise equal worlds
step to the same world. -/
theorem step_deterministic_witness :
    step (fun q => q) (fun q _ _ => q) 1
        ⟨[⟨1, ⟨0, 1, 0⟩, ⟨0, 0, 0⟩, ⟨0, 0, 0, 1⟩, ⟨0, 0, 0⟩, ⟨1, 1, 1⟩,
           ⟨ColliderType.capsule, ⟨1, 2, 0⟩⟩, false, false⟩],
          [⟨⟨0, 0, 0⟩, ⟨1, 1, 1⟩⟩]⟩ =
      step (fun q => q) (fun q _ _ => q) 1
        ⟨[⟨2/2, ⟨0, 1, 0⟩, ⟨0, 0, 0⟩, ⟨0, 0, 0, 1⟩, ⟨0, 0, 0⟩, ⟨1, 1, 1⟩,
           ⟨ColliderType.capsule, ⟨1, 2, 0⟩⟩, false, false⟩],
          [⟨⟨0, 0, 0⟩, ⟨2/2, 1, 1⟩⟩]⟩ :=
  step_deterministic (fun q => q) (fun q _ _ => q) 1 _ _ (by norm_num) (by norm_num)

theorem Vec3.add_def (a b : Vec3) : a + b = Vec3.add a b := rfl

theorem Vec3.sub_def (a b : Vec3) : a - b = Vec3.sub a b := rfl

theorem iterate_simulate_spec (sq : ℚ → ℚ) (rotUpd : Quat → Vec3 → ℚ → Quat)
    (d : ℚ) : ∀ (n : ℕ) (w : PhysicsWorld),
    (Nat.iterate (simulate sq rotUpd d) n w).staticColliders = w.staticColliders
    ∧ (Nat.iterate (simulate sq rotUpd d) n w).bodies =
        w.bodies.map (Nat.iterate (simulateBody sq rotUpd w.staticColliders d) n) := by
  intro n
  induction n with
  | zero => intro w; constructor <;> simp
  | succ k ih =>
    intro w
    rw [Function.iterate_succ_apply]
    obtain ⟨hs, hb⟩ := ih (simulate sq rotUpd d w)
    have hsc : (simulate sq rotUpd d w).staticColliders = w.staticColliders := rfl
    have hbd : (simulate sq rotUpd d w).bodies =
        w.bodies.map (simulateBody sq rotUpd w.staticColliders d) := rfl
    constructor
    · rw [hs, hsc]
    · rw [hb, hsc, hbd, List.map_map, ← Function.iterate_succ]

/-- C3: in every sub-step the integrator damps the linear velocity by the
fixed multiplicative factor `1 - 0.05` when the body entered the sub-step
grounded and `1 - 0.01` when airborne (the 5% and 1% are per sub-step, not
scaled by `dt`), damps the angular velocity by the separate `dt`-proportional
factor `1 - 2 * dt`, and a call to `step(dt)` runs exactly four such
sub-steps of `dt / 4` on every body. -/
theorem substep_damping_spec (sq : ℚ → ℚ) (rotUpd : Quat → Vec3 → ℚ → Quat)
    (dt : ℚ) (b : PhysicsBody) (w : PhysicsWorld) :
    ((integrateBody rotUpd dt b).velocity =
        Vec3.scale (1 - (if b.isGrounded then 5/100 else 1/100))
          (b.velocity.addScaled gravity dt)
      ∧ (integrateBody rotUpd dt b).angularVelocity =
          Vec3.scale (1 - 2 * dt) b.angularVelocity)
    ∧ (b.mass ≠ 0 → ¬ b.position.y < -20 →
        simulateBody sq rotUpd w.staticColliders dt b =
          (if (integrateBody rotUpd dt b).collider.ctype = ColliderType.capsule
           then resolveCapsule sq w.staticColliders (integrateBody rotUpd dt b)
           else resolveBox w.staticColliders (integrateBody rotUpd dt b)))
    ∧ (step sq rotUpd dt w).bodies =
        w.bodies.map (fun b0 =>
          Nat.iterate (simulateBody sq rotUpd w.staticColliders (dt / 4)) 4 b0) := by
  refine ⟨⟨?_, ?_⟩, ?_, ?_⟩
  · simp only [integrateBody]
    norm_num
  · simp only [integrateBody]
  · intro hm hy
    simp only [simulateBody, if_neg hm, if_neg hy]
  · have h := (iterate_simulate_spec sq rotUpd (dt / 4) 4 w).2
    simpa [step] using h

/-- C3 witness: the sub-step damping equations at a concrete grounded body
and a concrete step. -/
theorem substep_damping_spec_witness :
    (integrateBody (fun q _ _ => q) (1/2) playerRest).velocity =
      Vec3.scale (1 - (if playerRest.isGrounded then 5/100 else 1/100))
        (playerRest.velocity.addScaled gravity (1/2))
    ∧ (integrateBody (fun q _ _ => q) (1/2) playerRest).angularVelocity =
        Vec3.scale (1 - 2 * (1/2)) playerRest.angularVelocity :=
  (substep_damping_spec (fun _ => 0) (fun q _ _ => q) (1/2) playerRest ⟨[], []⟩).1

/-- C5: for a capsule overlapping a static box whose top sits below the
capsule's upper body, the vertical gap from the capsule bottom to the box top
dispatches the resolution at exactly the step height 0.4: a gap in
`(0, 0.4]` lifts the body onto the box (`y := boxTop + halfHeight`, vertical
velocity zeroed, grounded set), while any gap above 0.4 falls through to the
wall branch, which leaves both the height and the grounded flag unchanged. -/
theorem step_climb_boundary (sq : ℚ → ℚ) (radius halfHeight : ℚ)
    (cbox sb : Box3) (b : PhysicsBody)
    (hint : cbox.intersects sb = true)
    (hceil : sb.max.y < b.position.y + halfHeight - 1/10) :
    ((0 < sb.max.y - (b.position.y - halfHeight) ∧
        sb.max.y - (b.position.y - halfHeight) ≤ MAX_STEP_HEIGHT) →
      resolveCapsuleBox sq radius halfHeight (b.position.y - halfHeight) cbox b sb =
        { b with position := { b.position with y := sb.max.y + halfHeight },
                 velocity := { b.velocity with y := 0 },
                 isGrounded := true })
    ∧ (MAX_STEP_HEIGHT < sb.max.y - (b.position.y - halfHeight) →
      resolveCapsuleBox sq radius halfHeight (b.position.y - halfHeight) cbox b sb =
          wallPush sq radius sb b
        ∧ (wallPush sq radius sb b).position.y = b.position.y
        ∧ (wallPush sq radius sb b).isGrounded = b.isGrounded) := by
  constructor
  · rintro ⟨hpos, hle⟩
    simp only [resolveCapsuleBox, hint, if_true]
    rw [if_pos ⟨hpos, hle, hceil⟩]
    have hmax : Max.max b.position.y (sb.max.y + halfHeight) = sb.max.y + halfHeight :=
      max_eq_right (by linarith)
    rw [hmax]
  · intro hgt
    refine ⟨?_, wallPush_keeps_y sq radius sb b, wallPush_keeps_isGrounded sq radius sb b⟩
    simp only [resolveCapsuleBox, hint, if_true]
    rw [if_neg]
    rintro ⟨-, hle, -⟩
    linarith

/-- C5 witness: the boundary case — the player capsule (bottom at 0) against
a box whose top is at exactly 0.4 is lifted onto the box. -/
theorem step_climb_boundary_witness :
    resolveCapsuleBox (fun _ => 0) (7/20) (17/20)
        (playerRest.position.y - 17/20) ⟨⟨-1, 0, -1⟩, ⟨1, 1, 1⟩⟩ playerRest
        ⟨⟨-1, 0, -1⟩, ⟨1, 2/5, 1⟩⟩ =
      { playerRest with
        position := { playerRest.position with
          y := (⟨⟨-1, 0, -1⟩, ⟨1, 2/5, 1⟩⟩ : Box3).max.y + 17/20 },
        velocity := { playerRest.velocity with y := 0 },
        isGrounded := true } :=
  (step_climb_boundary (fun _ => 0) (7/20) (17/20) ⟨⟨-1, 0, -1⟩, ⟨1, 1, 1⟩⟩
      ⟨⟨-1, 0, -1⟩, ⟨1, 2/5, 1⟩⟩ playerRest
      (by norm_num [Box3.intersects])
      (by norm_num [playerRest])).1
    (by norm_num [playerRest, MAX_STEP_HEIGHT])

/-- C2 counterexample: for the tilted car body the suspension ray direction
is the body-rotated down `(24/25, -7/25, 0)`, not the world `-Y` axis — the
body's orientation does change the ray direction. -/
theorem wheel_suspension_ray_not_world_down :
    (wheelSuspension [] sportConfig tiltedCar ⟨-17/20, 1/5, -27/20⟩).rayDir ≠
      (⟨0, -1, 0⟩ : Vec3) := by
  simp only [wheelSuspension]
  norm_num [applyQuaternion, tiltedCar]

/-- C2 amended: the suspension ray is cast from the world-space mount point
along the body frame's down axis — `(0, -1, 0)` rotated by the body's
orientation — with length `suspensionLength + wheelRadius`; on a hit, the
clamped force `max(0, spring + damp)` is applied as an impulse along the
body frame's up axis (the body-rotated `(0, 1, 0)`, the negation of the ray
direction) at the mount point. -/
theorem wheel_suspension_body_frame (colliders : List Box3)
    (cfg : VehicleConfig) (b : PhysicsBody) (m : Vec3) :
    (wheelSuspension colliders cfg b m).rayDir =
        applyQuaternion b.rotation ⟨0, -1, 0⟩
    ∧ (wheelSuspension colliders cfg b m).mountWorld =
        applyQuaternion b.rotation m + b.position
    ∧ ∀ hit,
        raycast colliders (wheelSuspension colliders cfg b m).mountWorld
            (wheelSuspension colliders cfg b m).rayDir
            (cfg.suspensionLength + cfg.wheelRadius) = some hit →
        (wheelSuspension colliders cfg b m).impulse =
          some (Vec3.scale
            (Max.max 0
              (Max.max 0 (Min.min 1
                  (1 - (hit.dist - cfg.wheelRadius) / cfg.suspensionLength)) *
                cfg.suspensionStiffness +
               -((b.velocity + b.angularVelocity.cross
                    ((wheelSuspension colliders cfg b m).mountWorld - b.position)).dot
                  ((wheelSuspension colliders cfg b m).rayDir)) *
                cfg.suspensionDamping))
            (applyQuaternion b.rotation ⟨0, 1, 0⟩)) := by
  refine ⟨rfl, rfl, ?_⟩
  intro hit h
  simp only [wheelSuspension] at h ⊢
  rw [h]
  simp only [applyQuaternion, Vec3.scale, Option.some.injEq, Vec3.mk.injEq]
  refine ⟨by ring, by ring, by ring⟩

/-- C2 witness: the level car body with a wheel mounted at the body origin
receives the suspension impulse `(0, 19500, 0)` — the clamped spring force
along the body's (here world) up axis. -/
theorem wheel_suspension_body_frame_witness :
    (wheelSuspension [] sportConfig carRest ⟨0, 0, 0⟩).impulse =
      some ⟨0, 19500, 0⟩ := by
  have h := (wheel_suspension_body_frame [] sportConfig carRest ⟨0, 0, 0⟩).2.2
    ⟨3/5, ⟨0, 0, 0⟩, ⟨0, 1, 0⟩⟩
    (by norm_num [wheelSuspension, raycast, applyQuaternion, carRest, sportConfig,
      Quat.one, Vec3.add_def, Vec3.add, Vec3.addScaled])
  rw [h]
  norm_num [carRest, sportConfig, applyQuaternion, Vec3.scale, Vec3.cross,
    Vec3.dot, Vec3.add_def, Vec3.add, Vec3.sub_def, Vec3.sub, Quat.one,
    Vec3.zero, wheelSuspension]

/-- C6 counterexample: a static box strictly between the target `(0,0,0)`
and the naive desired camera position `(1,2,2)` (unit probe direction
`(1/3,2/3,2/3)`, full distance 3), whose near face crosses the probe ray at
distance `0.15` from the ray start: the clamp places the camera at the
signed offset `0.15 - 0.2 = -0.05`, which is not strictly greater than
zero, refuting the claim's positivity half. -/
theorem camera_probe_inset_negative :
    Vec3.lengthSq ⟨1/3, 2/3, 2/3⟩ = 1
    ∧ ((⟨1, 2, 2⟩ : Vec3) - ⟨0, 0, 0⟩) = Vec3.scale 3 ⟨1/3, 2/3, 2/3⟩
    ∧ probeHitDist ((⟨0, 0, 0⟩ : Vec3) + ⟨0, 1, 0⟩) ⟨1/3, 2/3, 2/3⟩ 3
        [⟨⟨1/20, 9/10, -1⟩, ⟨9/10, 19/10, 19/10⟩⟩] = 3/20
    ∧ resolvedCameraDist ⟨0, 0, 0⟩ ⟨1/3, 2/3, 2/3⟩ 3
        [⟨⟨1/20, 9/10, -1⟩, ⟨9/10, 19/10, 19/10⟩⟩] = -1/20
    ∧ ¬ (0 < resolvedCameraDist ⟨0, 0, 0⟩ ⟨1/3, 2/3, 2/3⟩ 3
        [⟨⟨1/20, 9/10, -1⟩, ⟨9/10, 19/10, 19/10⟩⟩]) := by
  have hp : probeHitDist ((⟨0, 0, 0⟩ : Vec3) + ⟨0, 1, 0⟩) ⟨1/3, 2/3, 2/3⟩ 3
      [⟨⟨1/20, 9/10, -1⟩, ⟨9/10, 19/10, 19/10⟩⟩] = 3/20 := by
    norm_num [probeHitDist, rayBoxT, slab, ERat.invDir, ERat.mulq, ERat.ge0,
      ERat.gt, ERat.lt, ERat.lt0, ERat.isNan, Vec3.add_def, Vec3.add, abs]
  have hr : resolvedCameraDist ⟨0, 0, 0⟩ ⟨1/3, 2/3, 2/3⟩ 3
      [⟨⟨1/20, 9/10, -1⟩, ⟨9/10, 19/10, 19/10⟩⟩] = -1/20 := by
    simp only [resolvedCameraDist]
    rw [hp]
    norm_num
  refine ⟨by norm_num [Vec3.lengthSq],
    by norm_num [Vec3.sub_def, Vec3.sub, Vec3.scale], hp, hr, ?_⟩
  rw [hr]
  norm_num

/-- C6 amended: whenever the closest probe hit is nearer than the full
desired camera distance, the camera is clamped to the signed offset
`hitDistance - 0.2` along the probe ray, which is strictly less than the
unobstructed distance; it is strictly greater than zero provided the hit
lies beyond the 0.2 inset (a hit within 0.2 of the ray start places the
camera at a non-positive offset). -/
theorem camera_probe_clamp (targetPos desiredPos dir : Vec3) (fullDist : ℚ)
    (colliders : List Box3)
    (hclose : probeHitDist (targetPos + ⟨0, 1, 0⟩) dir fullDist colliders < fullDist) :
    resolvedCameraDist targetPos dir fullDist colliders =
        probeHitDist (targetPos + ⟨0, 1, 0⟩) dir fullDist colliders - 1/5
    ∧ resolvedCameraDist targetPos dir fullDist colliders < fullDist
    ∧ (1/5 < probeHitDist (targetPos + ⟨0, 1, 0⟩) dir fullDist colliders →
        0 < resolvedCameraDist targetPos dir fullDist colliders)
    ∧ cameraProbe targetPos desiredPos dir fullDist colliders =
        (targetPos + ⟨0, 1, 0⟩) + Vec3.scale
          (probeHitDist (targetPos + ⟨0, 1, 0⟩) dir fullDist colliders - 1/5) dir := by
  have h1 : resolvedCameraDist targetPos dir fullDist colliders =
      probeHitDist (targetPos + ⟨0, 1, 0⟩) dir fullDist colliders - 1/5 := by
    simp only [resolvedCameraDist]
    rw [if_pos hclose]
  refine ⟨h1, ?_, ?_, ?_⟩
  · rw [h1]; linarith
  · intro h5; rw [h1]; linarith
  · simp only [cameraProbe]
    rw [if_pos hclose]

/-- C6 witness: with the occluding box moved so the probe hits it at
distance 0.9, the clamped camera offset `0.7` is strictly positive and
strictly below the desired distance 3. -/
theorem camera_probe_clamp_witness :
    0 < resolvedCameraDist ⟨0, 0, 0⟩ ⟨1/3, 2/3, 2/3⟩ 3
        [⟨⟨3/10, 9/10, -1⟩, ⟨9/10, 19/10, 19/10⟩⟩]
    ∧ resolvedCameraDist ⟨0, 0, 0⟩ ⟨1/3, 2/3, 2/3⟩ 3
        [⟨⟨3/10, 9/10, -1⟩, ⟨9/10, 19/10, 19/10⟩⟩] < 3 := by
  have hp : probeHitDist ((⟨0, 0, 0⟩ : Vec3) + ⟨0, 1, 0⟩) ⟨1/3, 2/3, 2/3⟩ 3
      [⟨⟨3/10, 9/10, -1⟩, ⟨9/10, 19/10, 19/10⟩⟩] = 9/10 := by
    norm_num [probeHitDist, rayBoxT, slab, ERat.invDir, ERat.mulq, ERat.ge0,
      ERat.gt, ERat.lt, ERat.lt0, ERat.isNan, Vec3.add_def, Vec3.add, abs]
  have h := camera_probe_clamp ⟨0, 0, 0⟩ ⟨1, 2, 2⟩ ⟨1/3, 2/3, 2/3⟩ 3
    [⟨⟨3/10, 9/10, -1⟩, ⟨9/10, 19/10, 19/10⟩⟩] (by rw [hp]; norm_num)
  refine ⟨h.2.2.1 (by rw [hp]; norm_num), h.2.1⟩

theorem qnormalize_norm (q : Quaternion ℝ) : ‖RotModel.qnormalize q‖ = 1 := by
  unfold RotModel.qnormalize
  split_ifs with h
  · have hone : (⟨1, 0, 0, 0⟩ : Quaternion ℝ) = 1 := rfl
    rw [hone, norm_one]
  · rw [norm_smul, norm_inv, norm_norm]
    exact inv_mul_cancel₀ h

theorem integrateRotation_norm (q : Quaternion ℝ) (av : RotModel.Vec3R)
    (dt : ℝ) (h : ‖q‖ = 1) : ‖RotModel.integrateRotation q av dt‖ = 1 := by
  simp only [RotModel.integrateRotation]
  split_ifs with hang
  · exact qnormalize_norm _
  · exact h

/-- C7: starting from a unit orientation, any finite sequence of sub-step
angular integrations leaves the orientation norm exactly 1 (hence within
every nonnegative epsilon of 1): applied sub-steps renormalize after
composing, and sub-steps whose angle is at or below the `0.0001` epsilon
leave the orientation untouched. -/
theorem orientation_norm_unit (q0 : Quaternion ℝ)
    (steps : List (RotModel.Vec3R × ℝ)) (ε : ℝ) (h1 : ‖q0‖ = 1)
    (hε : 0 ≤ ε) :
    ‖RotModel.orientationAfter q0 steps‖ = 1
    ∧ |‖RotModel.orientationAfter q0 steps‖ - 1| ≤ ε := by
  have key : ∀ (l : List (RotModel.Vec3R × ℝ)) (q : Quaternion ℝ),
      ‖q‖ = 1 → ‖RotModel.orientationAfter q l‖ = 1 := by
    intro l
    induction l with
    | nil =>
      intro q hq
      simpa [RotModel.orientationAfter] using hq
    | cons s t ih =>
      intro q hq
      simpa [RotModel.orientationAfter, List.foldl_cons] using
        ih _ (integrateRotation_norm q s.1 s.2 hq)
  have h2 := key steps q0 h1
  refine ⟨h2, ?_⟩
  rw [h2]
  simpa using hε

/-- C7 witness: from the identity orientation, a sub-step with zero angular
velocity keeps the norm at 1, within epsilon 1. -/
theorem orientation_norm_unit_witness :
    ‖RotModel.orientationAfter 1 [(⟨0, 0, 0⟩, 1)]‖ = 1
    ∧ |‖RotModel.orientationAfter 1 [(⟨0, 0, 0⟩, 1)]‖ - 1| ≤ 1 :=
  orientation_norm_unit 1 [(⟨0, 0, 0⟩, 1)] 1 norm_one zero_le_one

theorem capsule_rest_core (sq : ℚ → ℚ) (rotUpd : Quat → Vec3 → ℚ → Quat)
    (dt m px pz cy cx cz : ℚ) (rot : Quat) (szb : Vec3) (g sl : Bool)
    (hdt : 0 < dt) (hm : m ≠ 0) (hh : 0 ≤ cy) :
    simulateBody sq rotUpd [] dt
      ⟨m, ⟨px, cy/2, pz⟩, Vec3.zero, rot, Vec3.zero, szb,
       ⟨ColliderType.capsule, ⟨cx, cy, cz⟩⟩, g, sl⟩
      = ⟨m, ⟨px, cy/2, pz⟩, Vec3.zero, rot, Vec3.zero, szb,
         ⟨ColliderType.capsule, ⟨cx, cy, cz⟩⟩, true, sl⟩ := by
  have hdt2 : 0 < dt * dt := mul_pos hdt hdt
  rcases g <;>
  · simp only [simulateBody, integrateBody, resolveCapsule, Vec3.zero,
      Vec3.addScaled, Vec3.scale, Vec3.lengthSq, gravity, List.foldl_nil, hm,
      if_false, Bool.false_eq_true, if_true]
    norm_num
    split_ifs <;> try (exfalso; nlinarith)
    all_goals simp_all

theorem box_rest_core (sq : ℚ → ℚ) (rotUpd : Quat → Vec3 → ℚ → Quat)
    (dt m px pz cy cx cz vy : ℚ) (rot : Quat) (szb : Vec3) (g sl : Bool)
    (hdt : 0 < dt) (hm : m ≠ 0) (hh : 0 ≤ cy) (hvyu : vy < 25 * dt) :
    simulateBody sq rotUpd [] dt
      ⟨m, ⟨px, cy, pz⟩, ⟨0, vy, 0⟩, rot, Vec3.zero, szb,
       ⟨ColliderType.box, ⟨cx, cy, cz⟩⟩, g, sl⟩
      = ⟨m, ⟨px, cy, pz⟩,
         ⟨0, (1 - (if g then (1/20 : ℚ) else 1/100)) * (25 * dt - vy) * (3/10), 0⟩,
         rot, Vec3.zero, szb, ⟨ColliderType.box, ⟨cx, cy, cz⟩⟩, false, sl⟩ := by
  have hdt2 : 0 < dt * dt := mul_pos hdt hdt
  rcases g <;>
  · simp only [simulateBody, integrateBody, resolveBox, Vec3.zero,
      Vec3.addScaled, Vec3.scale, Vec3.lengthSq, gravity, List.foldl_nil, hm,
      if_false, Bool.false_eq_true, if_true]
    norm_num
    split_ifs <;> try (exfalso; nlinarith)
    all_goals simp_all
    all_goals ring

theorem box_rest_iter (sq : ℚ → ℚ) (rotUpd : Quat → Vec3 → ℚ → Quat)
    (dt m px pz cy cx cz : ℚ) (rot : Quat) (szb : Vec3) (sl : Bool)
    (hdt : 0 < dt) (hm : m ≠ 0) (hh : 0 ≤ cy) :
    ∀ (n : ℕ) (vy : ℚ), 0 ≤ vy → vy < 25 * dt →
    ∃ vy2 : ℚ, 0 ≤ vy2 ∧ vy2 < 25 * dt ∧
      Nat.iterate (simulateBody sq rotUpd [] dt) n
        ⟨m, ⟨px, cy, pz⟩, ⟨0, vy, 0⟩, rot, Vec3.zero, szb,
         ⟨ColliderType.box, ⟨cx, cy, cz⟩⟩, false, sl⟩
      = ⟨m, ⟨px, cy, pz⟩, ⟨0, vy2, 0⟩, rot, Vec3.zero, szb,
         ⟨ColliderType.box, ⟨cx, cy, cz⟩⟩, false, sl⟩ := by
  intro n
  induction n with
  | zero =>
    intro vy h0 hu
    exact ⟨vy, h0, hu, rfl⟩
  | succ k ih =>
    intro vy h0 hu
    have hstep := box_rest_core sq rotUpd dt m px pz cy cx cz vy rot szb false sl
      hdt hm hh hu
    rw [Function.iterate_succ_apply, hstep]
    have h0n : 0 ≤ (1 - (if false then (1/20 : ℚ) else 1/100)) * (25 * dt - vy) * (3/10) := by
      norm_num
      nlinarith
    have hun : (1 - (if false then (1/20 : ℚ) else 1/100)) * (25 * dt - vy) * (3/10) < 25 * dt := by
      norm_num
      nlinarith
    exact ih _ h0n hun

/-- C1 amended: a body with positive mass resting on the ground plane with
zero velocity and zero angular velocity, in a world with no static
colliders, ends one `step` call at rest height; a capsule body ends with
`position.y = halfHeight` and `isGrounded = true` as claimed, but a
box-collider (vehicle) body ends with `position.y = halfExtent.y` and
`isGrounded = false` — `resolveBox` never sets the grounded flag. -/
theorem ground_rest_after_step (sq : ℚ → ℚ) (rotUpd : Quat → Vec3 → ℚ → Quat)
    (dt : ℚ) (b : PhysicsBody) (hdt : 0 < dt) (hm : 0 < b.mass)
    (hv : b.velocity = Vec3.zero) (hav : b.angularVelocity = Vec3.zero)
    (hh : 0 ≤ b.collider.size.y) :
    (b.collider.ctype = ColliderType.capsule →
      b.position.y = b.collider.size.y / 2 →
      (step sq rotUpd dt ⟨[b], []⟩).bodies.map
          (fun r => (r.position.y, r.isGrounded)) =
        [(b.collider.size.y / 2, true)])
    ∧ (b.collider.ctype = ColliderType.box →
      b.position.y = b.collider.size.y →
      (step sq rotUpd dt ⟨[b], []⟩).bodies.map
          (fun r => (r.position.y, r.isGrounded)) =
        [(b.collider.size.y, false)]) := by
  have hm' : b.mass ≠ 0 := ne_of_gt hm
  have hd4 : 0 < dt / 4 := by positivity
  have hbodies : (step sq rotUpd dt ⟨[b], []⟩).bodies =
      [b].map (Nat.iterate (simulateBody sq rotUpd [] (dt / 4)) 4) := by
    have h := (iterate_simulate_spec sq rotUpd (dt / 4) 4 ⟨[b], []⟩).2
    simpa [step] using h
  rw [hbodies]
  obtain ⟨m, ⟨px, py, pz⟩, v, rot, av, szb, ⟨ct, ⟨cx, cy, cz⟩⟩, g, sl⟩ := b
  dsimp only at hm' hv hav hh ⊢
  subst hv
  subst hav
  constructor
  · intro hc hy
    subst hc
    subst hy
    have s1 := capsule_rest_core sq rotUpd (dt/4) m px pz cy cx cz rot szb g sl
      hd4 hm' hh
    have s2 := capsule_rest_core sq rotUpd (dt/4) m px pz cy cx cz rot szb true sl
      hd4 hm' hh
    simp only [List.map, Function.iterate_succ_apply, Function.iterate_zero_apply, s1, s2]
  · intro hc hy
    subst hc
    subst hy
    have hu0 : (0 : ℚ) < 25 * (dt / 4) := by positivity
    have s1 := box_rest_core sq rotUpd (dt/4) m px pz py cx cz 0 rot szb g sl
      hd4 hm' hh hu0
    have h0n : 0 ≤ (1 - (if g then (1/20 : ℚ) else 1/100)) * (25 * (dt/4) - 0) * (3/10) := by
      rcases g <;> norm_num <;> nlinarith
    have hun : (1 - (if g then (1/20 : ℚ) else 1/100)) * (25 * (dt/4) - 0) * (3/10) < 25 * (dt/4) := by
      rcases g <;> norm_num <;> nlinarith
    obtain ⟨vy4, hv0, hvu, hiter⟩ := box_rest_iter sq rotUpd (dt/4) m px pz py cx cz rot szb sl
      hd4 hm' hh 3 _ h0n hun
    have hzero : (Vec3.zero : Vec3) = ⟨0, 0, 0⟩ := rfl
    simp only [List.map_cons, List.map_nil]
    rw [show (4 : ℕ) = 3 + 1 from rfl, Function.iterate_succ_apply]
    rw [hzero] at s1 hiter ⊢
    rw [s1, hiter]

/-- C1 counterexample: the sport car's box body resting on the ground plane
(`position.y = halfExtent.y = 0.6`, zero velocity) ends one `step(1)` call
with `position.y = 0.6` as claimed but `isGrounded = false` — the claim's
`isGrounded == true` fails for box-collider bodies. -/
theorem box_rest_not_grounded :
    (step (fun _ => 0) (fun q _ _ => q) 1 ⟨[carRest], []⟩).bodies.map
        (fun r => (r.position.y, r.isGrounded)) = [((3 : ℚ)/5, false)]
    ∧ ¬ ((step (fun _ => 0) (fun q _ _ => q) 1 ⟨[carRest], []⟩).bodies.map
        (fun r => (r.position.y, r.isGrounded)) = [((3 : ℚ)/5, true)]) := by
  have key : (step (fun _ => 0) (fun q _ _ => q) 1 ⟨[carRest], []⟩).bodies.map
      (fun r => (r.position.y, r.isGrounded)) = [((3 : ℚ)/5, false)] := by
    have hbodies : (step (fun _ => 0) (fun q _ _ => q) 1 ⟨[carRest], []⟩).bodies =
        [carRest].map (Nat.iterate (simulateBody (fun _ => 0) (fun q _ _ => q) [] (1 / 4)) 4) := by
      have h := (iterate_simulate_spec (fun _ => 0) (fun q _ _ => q) (1 / 4) 4
        ⟨[carRest], []⟩).2
      simpa [step] using h
    rw [hbodies]
    have s1 := box_rest_core (fun _ => 0) (fun q _ _ => q) (1/4) 1400 0 0 (3/5)
      (11/5) (19/10) 0 Quat.one ⟨22/5, 6/5, 19/10⟩ true false
      (by norm_num) (by norm_num) (by norm_num) (by norm_num)
    have h0n : (0 : ℚ) ≤ (1 - (if true then (1/20 : ℚ) else 1/100)) * (25 * (1/4) - 0) * (3/10) := by
      norm_num
    have hun : (1 - (if true then (1/20 : ℚ) else 1/100)) * (25 * (1/4) - 0) * (3/10) < 25 * (1/4) := by
      norm_num
    obtain ⟨vy4, hv0, hvu, hiter⟩ := box_rest_iter (fun _ => 0) (fun q _ _ => q)
      (1/4) 1400 0 0 (3/5) (11/5) (19/10) Quat.one ⟨22/5, 6/5, 19/10⟩ false
      (by norm_num) (by norm_num) (by norm_num) 3 _ h0n hun
    have hzero : (Vec3.zero : Vec3) = ⟨0, 0, 0⟩ := rfl
    simp only [List.map_cons, List.map_nil, carRest]
    rw [show (4 : ℕ) = 3 + 1 from rfl, Function.iterate_succ_apply]
    rw [hzero] at s1 hiter ⊢
    rw [s1, hiter]
  refine ⟨key, ?_⟩
  rw [key]
  simp

/-- C1 witness: the amended theorem at the resting player capsule (ends
grounded at halfHeight) and at the resting sport car box (ends ungrounded at
halfExtent height), both with `dt = 1`. -/
theorem ground_rest_after_step_witness :
    (step (fun _ => 0) (fun q _ _ => q) 1 ⟨[playerRest], []⟩).bodies.map
        (fun r => (r.position.y, r.isGrounded)) =
      [(playerRest.collider.size.y / 2, true)]
    ∧ (step (fun _ => 0) (fun q _ _ => q) 1 ⟨[carRest], []⟩).bodies.map
        (fun r => (r.position.y, r.isGrounded)) =
      [(carRest.collider.size.y, false)] :=
  ⟨(ground_rest_after_step (fun _ => 0) (fun q _ _ => q) 1 playerRest
      (by norm_num) (by norm_num [playerRest]) rfl rfl
      (by norm_num [playerRest])).1 rfl (by norm_num [playerRest]),
   (ground_rest_after_step (fun _ => 0) (fun q _ _ => q) 1 carRest
      (by norm_num) (by norm_num [carRest]) rfl rfl
      (by norm_num [carRest])).2 rfl (by norm_num [carRest])⟩
